import Mathlib

/-!
A shallow embedding of the keyboard-input layer of `less` (file
`less/ttyin.c`), as compiled for the Apple/Unix configuration:
`__APPLE__` defined, `MSDOS_COMPILER` not defined, `HAVE_TTYNAME`
defined, `LESSTEST` not defined, the `#if 0` hex-entry block excluded.

Bytes are modelled as `Nat` values; storage into a `char`/`unsigned
char` is modelled by `% 256`.  The NUL-terminated alternate command
string `active_dashp_command` is modelled as the list of its bytes
before the terminating NUL (a C string cannot contain an interior NUL).
The real device and the stderr stream are modelled as lists of events
consumed from the front; an empty list means the process would block,
which the model reports as `none`.
-/

/-- Outcome of one `getchr` call.  `byte b` is a returned character code,
`eof` is the C `return (EOF)`, `intr` is `return (READ_INTR)`, and
`quitError` records that `quit(QUIT_ERROR)` was invoked (abnormal process
termination, bypassing the `error()` reporting path). -/
inductive GetchrResult where
  | byte (b : Nat)
  | eof
  | intr
  | quitError
deriving DecidableEq, Repr

/-- One result of `iread(tty, &uc, 1)` on the real device: an interrupt
(`READ_INTR`), a negative error return, a zero-byte transfer, or a
successfully read byte. -/
inductive DevEvent where
  | intr
  | err
  | eof
  | byte (b : Nat)
deriving DecidableEq, Repr

/-- One result of the stderr-fallback refill step: the `poll` reports the
stream not readable, `read(STDERR_FILENO, ...)` returns a negative error,
or it returns a chunk of bytes (`chunk []` is a zero-byte transfer). -/
inductive StderrEvent where
  | notReadable
  | readErr
  | chunk (bs : List Nat)
deriving DecidableEq, Repr

/-- The mutable state consulted by `getchr`: the externally supplied
command string cursor `active_dashp_command` with its `add_newline` flag,
the `__APPLE__` flags `use_stderr` (function-static), `is_tty` and
`less_is_more` (externs), and the static stderr buffer
`errbuf`/`errpos`/`errbuf_sz`. -/
structure GetchrState where
  active_dashp_command : Option (List Nat)
  add_newline : Bool
  use_stderr : Bool
  is_tty : Bool
  less_is_more : Bool
  errbuf : List Nat
  errpos : Nat
  errbuf_sz : Int
deriving DecidableEq, Repr

/-- The `do { flush(); result = iread(...); ... } while (result != 1)`
loop of `getchr`: an interrupt returns `READ_INTR`, a negative result
calls `quit(QUIT_ERROR)`, a zero-byte transfer repeats the loop, and a
byte is returned after the NUL remap (`if (c == '\0') c = '\340'`),
masked by `& 0xFF`. -/
def readLoop : List DevEvent → Option (GetchrResult × List DevEvent)
  | [] => none
  | DevEvent.intr :: rest => some (GetchrResult.intr, rest)
  | DevEvent.err :: rest => some (GetchrResult.quitError, rest)
  | DevEvent.eof :: rest => readLoop rest
  | DevEvent.byte b :: rest =>
      let c := b % 256
      some (GetchrResult.byte (if c = 0 then 0o340 else c), rest)

/-- The primary-device tail of `getchr` (label `no_stderr` onwards): the
state is returned unchanged and the stderr event stream untouched. -/
def getchrDevice (s : GetchrState) (se : List StderrEvent) (de : List DevEvent) :
    Option (GetchrResult × GetchrState × List StderrEvent × List DevEvent) :=
  (readLoop de).map (fun p => (p.1, s, se, p.2))

/-- The stderr-fallback code from `if (errbuf_sz <= 0)` onwards: with a
non-positive buffer size either disable the fallback and fall through to
the device (`errpos == 0 || errbuf_sz < 0`) or return `EOF`; otherwise
return `errbuf[errpos++] & 0xFF` directly (the `goto out` path, which
skips the NUL remap of the device loop). -/
def getchrStderrTail (s : GetchrState) (se : List StderrEvent) (de : List DevEvent) :
    Option (GetchrResult × GetchrState × List StderrEvent × List DevEvent) :=
  if s.errbuf_sz ≤ 0 then
    if s.errpos = 0 ∨ s.errbuf_sz < 0 then
      getchrDevice { s with use_stderr := false } se de
    else
      some (GetchrResult.eof, s, se, de)
  else
    some (GetchrResult.byte (s.errbuf.getD s.errpos 0 % 256),
      { s with errpos := s.errpos + 1 }, se, de)

/-- `getchr` after the `active_dashp_command` block: the `__APPLE__`
stderr fallback (guarded by `use_stderr && is_tty && less_is_more`,
refilling the buffer when `errpos == errbuf_sz`) and, past it, the
primary device loop. -/
def getchrAfterAlt (s : GetchrState) (se : List StderrEvent) (de : List DevEvent) :
    Option (GetchrResult × GetchrState × List StderrEvent × List DevEvent) :=
  if s.use_stderr && s.is_tty && s.less_is_more then
    if (s.errpos : Int) = s.errbuf_sz then
      match se with
      | [] => none
      | StderrEvent.notReadable :: se1 =>
          getchrDevice { s with use_stderr := false } se1 de
      | StderrEvent.readErr :: se1 =>
          getchrStderrTail { s with errbuf_sz := -1 } se1 de
      | StderrEvent.chunk bs :: se1 =>
          let s1 := { s with errbuf_sz := (bs.length : Int) }
          let s2 := if 0 < bs.length then { s1 with errbuf := bs, errpos := 0 } else s1
          getchrStderrTail s2 se1 de
    else
      getchrStderrTail s se de
  else
    getchrDevice s se de

/-- The full `getchr`: first the `active_dashp_command` cursor (a
character before the NUL is returned masked by `& 0377`; hitting the NUL
clears the cursor and, when `add_newline` is set, returns a synthesized
newline and clears the flag, otherwise falls through within the same
call), then the stderr fallback and the device loop. -/
def getchr (s : GetchrState) (se : List StderrEvent) (de : List DevEvent) :
    Option (GetchrResult × GetchrState × List StderrEvent × List DevEvent) :=
  match s.active_dashp_command with
  | some (c :: rest) =>
      some (GetchrResult.byte (c % 256),
        { s with active_dashp_command := some rest }, se, de)
  | some [] =>
      let s1 := { s with active_dashp_command := none }
      if s1.add_newline then
        some (GetchrResult.byte 10, { s1 with add_newline := false }, se, de)
      else
        getchrAfterAlt s1 se de
  | none => getchrAfterAlt s se de

/-- Claim C1: the spec states that a null byte obtained from any active
input source is remapped to 0xE0 before being returned, and 0 is never
returned.  Evaluating `getchr` at the failing input: with the stderr
fallback active (`use_stderr`, `is_tty`, `less_is_more` all set) and the
stderr stream delivering the single byte 0x00, `getchr` returns the
literal byte 0 to its caller (the `goto out` path bypasses the NUL
remap), while the same byte read from the primary device is remapped to
0o340 = 0xE0 = 224. -/
theorem getchr_stderr_returns_null_byte :
    getchr ⟨none, false, true, true, true, [], 0, 0⟩ [StderrEvent.chunk [0]] [] =
      some (GetchrResult.byte 0, ⟨none, false, true, true, true, [0], 1, 1⟩, [], []) ∧
    getchr ⟨none, false, true, true, false, [], 0, 0⟩ [] [DevEvent.byte 0] =
      some (GetchrResult.byte 224, ⟨none, false, true, true, false, [], 0, 0⟩, [], []) := by
  decide

/-- Claim C3: with the alternate command source holding "abc" (bytes
97, 98, 99) and the pending-newline flag set, three consecutive `getchr`
calls return 'a', 'b', 'c'; the fourth call returns '\n' (10) and clears
both the cursor and the flag; the fifth call reads from the real device
(here delivering 'q' = 113) and consumes its event. -/
theorem getchr_alt_abc_newline :
    getchr ⟨some [97, 98, 99], true, true, true, false, [], 0, 0⟩ [] [DevEvent.byte 113] =
      some (GetchrResult.byte 97, ⟨some [98, 99], true, true, true, false, [], 0, 0⟩, [],
        [DevEvent.byte 113]) ∧
    getchr ⟨some [98, 99], true, true, true, false, [], 0, 0⟩ [] [DevEvent.byte 113] =
      some (GetchrResult.byte 98, ⟨some [99], true, true, true, false, [], 0, 0⟩, [],
        [DevEvent.byte 113]) ∧
    getchr ⟨some [99], true, true, true, false, [], 0, 0⟩ [] [DevEvent.byte 113] =
      some (GetchrResult.byte 99, ⟨some [], true, true, true, false, [], 0, 0⟩, [],
        [DevEvent.byte 113]) ∧
    getchr ⟨some [], true, true, true, false, [], 0, 0⟩ [] [DevEvent.byte 113] =
      some (GetchrResult.byte 10, ⟨none, false, true, true, false, [], 0, 0⟩, [],
        [DevEvent.byte 113]) ∧
    getchr ⟨none, false, true, true, false, [], 0, 0⟩ [] [DevEvent.byte 113] =
      some (GetchrResult.byte 113, ⟨none, false, true, true, false, [], 0, 0⟩, [], []) :=
  ⟨by decide, by decide, by decide, by decide, by decide⟩

/-- Claim C4, counterexample: the claim states that a zero-unit device
read is reported to the caller as end-of-stream without internal retry.
In fact, on the primary device path a zero-unit transfer makes the
`do ... while (result != 1)` loop retry: with the device delivering a
zero-unit read followed by the byte 'q' = 113, `getchr` returns
`byte 113` — both events are consumed within the one call and no
end-of-stream outcome is reported. -/
theorem getchr_device_eof_retried :
    getchr ⟨none, false, true, true, false, [], 0, 0⟩ [] [DevEvent.eof, DevEvent.byte 113] =
      some (GetchrResult.byte 113, ⟨none, false, true, true, false, [], 0, 0⟩, [], []) ∧
    GetchrResult.byte 113 ≠ GetchrResult.eof := by
  decide

/-- Claim C2: any byte b ≠ 0 read from the underlying device is returned
by `getchr` exactly as `b & 0xFF`, with no other transformation: on the
device path (no alternate command string, stderr fallback not taken) a
successful one-byte read of b yields `byte b`, the state unchanged. -/
theorem getchr_device_byte_passthrough (s : GetchrState) (se : List StderrEvent)
    (b : Nat) (rest : List DevEvent)
    (halt : s.active_dashp_command = none)
    (hstderr : (s.use_stderr && s.is_tty && s.less_is_more) = false)
    (hb : b < 256) (hnz : b ≠ 0) :
    getchr s se (DevEvent.byte b :: rest) =
      some (GetchrResult.byte b, s, se, rest) := by
  simp [getchr, getchrAfterAlt, getchrDevice, readLoop, halt, hstderr,
    Nat.mod_eq_of_lt hb, hnz]

/-- Witness for C2 at b = 'q' = 113. -/
theorem getchr_device_byte_passthrough_w :
    getchr ⟨none, false, true, true, false, [], 0, 0⟩ [] [DevEvent.byte 113] =
      some (GetchrResult.byte 113, ⟨none, false, true, true, false, [], 0, 0⟩, [], []) :=
  getchr_device_byte_passthrough ⟨none, false, true, true, false, [], 0, 0⟩ []
    113 [] rfl rfl (by decide) (by decide)

/-- Claim C5: a negative result from the device read makes `getchr`
invoke `quit(QUIT_ERROR)` (modelled by the `quitError` outcome, distinct
from any value routed through the `error()` reporting path), and no
further read attempt is made on that path — the remaining device events
`rest` are returned unconsumed, for every `rest`. -/
theorem getchr_read_error_quits (s : GetchrState) (se : List StderrEvent)
    (rest : List DevEvent)
    (halt : s.active_dashp_command = none)
    (hstderr : (s.use_stderr && s.is_tty && s.less_is_more) = false) :
    getchr s se (DevEvent.err :: rest) =
      some (GetchrResult.quitError, s, se, rest) := by
  simp [getchr, getchrAfterAlt, getchrDevice, readLoop, halt, hstderr]

/-- Witness for C5. -/
theorem getchr_read_error_quits_w :
    getchr ⟨none, false, true, true, false, [], 0, 0⟩ [] [DevEvent.err, DevEvent.byte 7] =
      some (GetchrResult.quitError, ⟨none, false, true, true, false, [], 0, 0⟩, [],
        [DevEvent.byte 7]) :=
  getchr_read_error_quits ⟨none, false, true, true, false, [], 0, 0⟩ []
    [DevEvent.byte 7] rfl rfl

/-- Claim C6: an interrupted read (`iread` returning `READ_INTR`) makes
`getchr` return the interrupt sentinel immediately: no retry happens and
no byte from that attempt is returned — the remaining device events
`rest` are returned unconsumed, for every `rest`. -/
theorem getchr_read_intr_immediate (s : GetchrState) (se : List StderrEvent)
    (rest : List DevEvent)
    (halt : s.active_dashp_command = none)
    (hstderr : (s.use_stderr && s.is_tty && s.less_is_more) = false) :
    getchr s se (DevEvent.intr :: rest) =
      some (GetchrResult.intr, s, se, rest) := by
  simp [getchr, getchrAfterAlt, getchrDevice, readLoop, halt, hstderr]

/-- Witness for C6. -/
theorem getchr_read_intr_immediate_w :
    getchr ⟨none, false, true, true, false, [], 0, 0⟩ [] [DevEvent.intr, DevEvent.byte 7] =
      some (GetchrResult.intr, ⟨none, false, true, true, false, [], 0, 0⟩, [],
        [DevEvent.byte 7]) :=
  getchr_read_intr_immediate ⟨none, false, true, true, false, [], 0, 0⟩ []
    [DevEvent.byte 7] rfl rfl

/-- Claim C10: when the alternate command string is exhausted (the cursor
sits on the terminating NUL) and `add_newline` is clear, `getchr` clears
the cursor and falls through to the device read within that same call:
the result is exactly the device loop's result with the cursor nulled in
the returned state, so the terminating NUL is never returned as input and
no extra call is consumed. -/
theorem getchr_alt_exhausted_fallthrough (s : GetchrState) (se : List StderrEvent)
    (de : List DevEvent)
    (halt : s.active_dashp_command = some [])
    (hnl : s.add_newline = false)
    (hstderr : (s.use_stderr && s.is_tty && s.less_is_more) = false) :
    getchr s se de =
      (readLoop de).map
        (fun p => (p.1, { s with active_dashp_command := none }, se, p.2)) := by
  obtain ⟨alt, anl, us, itty, lim, eb, ep, esz⟩ := s
  simp only at halt hnl hstderr
  subst halt hnl
  simp [getchr, getchrAfterAlt, getchrDevice, hstderr]

/-- Witness for C10: the call after "abc"+newline was consumed, with the
flag clear, reads 'q' from the device in the same call. -/
theorem getchr_alt_exhausted_fallthrough_w :
    getchr ⟨some [], false, true, true, false, [], 0, 0⟩ [] [DevEvent.byte 113] =
      (readLoop [DevEvent.byte 113]).map
        (fun p => (p.1, (⟨none, false, true, true, false, [], 0, 0⟩ : GetchrState), [], p.2)) :=
  getchr_alt_exhausted_fallthrough ⟨some [], false, true, true, false, [], 0, 0⟩ []
    [DevEvent.byte 113] rfl rfl rfl

/-- Claim C4, amended: a zero-unit device read is retried internally by
the primary loop (never reported to the caller), while end-of-stream
(`EOF`) is reported only on the stderr fallback path, when the refill
read transfers zero bytes after prior data had been consumed
(`errpos != 0`). -/
theorem getchr_zero_read_split :
    (∀ (s : GetchrState) (se : List StderrEvent) (rest : List DevEvent),
      s.active_dashp_command = none →
      (s.use_stderr && s.is_tty && s.less_is_more) = false →
      getchr s se (DevEvent.eof :: rest) = getchr s se rest) ∧
    (∀ (s : GetchrState) (se : List StderrEvent) (de : List DevEvent),
      s.active_dashp_command = none →
      (s.use_stderr && s.is_tty && s.less_is_more) = true →
      (s.errpos : Int) = s.errbuf_sz →
      s.errpos ≠ 0 →
      getchr s (StderrEvent.chunk [] :: se) de =
        some (GetchrResult.eof, { s with errbuf_sz := 0 }, se, de)) := by
  constructor
  · intro s se rest halt hstderr
    simp [getchr, getchrAfterAlt, getchrDevice, readLoop, halt, hstderr]
  · intro s se de halt hstderr hfill hpos
    simp [getchr, getchrAfterAlt, getchrStderrTail, halt, hstderr, hfill, hpos]

/-- Witness for C4 (both conjuncts at concrete inputs). -/
theorem getchr_zero_read_split_w :
    getchr ⟨none, false, true, true, false, [], 0, 0⟩ [] [DevEvent.eof] =
      getchr ⟨none, false, true, true, false, [], 0, 0⟩ [] [] ∧
    getchr ⟨none, false, true, true, true, [5], 1, 1⟩ [StderrEvent.chunk []] [] =
      some (GetchrResult.eof, ⟨none, false, true, true, true, [5], 1, 0⟩, [], []) :=
  ⟨getchr_zero_read_split.1 ⟨none, false, true, true, false, [], 0, 0⟩ [] [] rfl rfl,
   getchr_zero_read_split.2 ⟨none, false, true, true, true, [5], 1, 1⟩ [] [] rfl rfl rfl
     (by decide)⟩

/-- Claim C8: once `use_stderr` is false it can never become true again
— the flag transitions from true to false at most once — and with the
flag false the stderr stream is never consulted (the stderr event list is
returned untouched), so every subsequent `getchr` call uses the primary
device path. -/
theorem getchr_use_stderr_permanent (s : GetchrState) (se : List StderrEvent)
    (de : List DevEvent) (r : GetchrResult) (s1 : GetchrState)
    (se1 : List StderrEvent) (de1 : List DevEvent)
    (hs : s.use_stderr = false)
    (h : getchr s se de = some (r, s1, se1, de1)) :
    s1.use_stderr = false ∧ se1 = se := by
  obtain ⟨alt, anl, us, itty, lim, eb, ep, esz⟩ := s
  simp only at hs
  subst hs
  cases alt with
  | none =>
      simp [getchr, getchrAfterAlt, getchrDevice, Option.map_eq_some'] at h
      obtain ⟨p, pd, -, -, hstate, hse, -⟩ := h
      subst hstate
      subst hse
      exact ⟨rfl, rfl⟩
  | some cs =>
      cases cs with
      | nil =>
          by_cases hnl : anl
          · subst hnl
            simp [getchr] at h
            obtain ⟨-, hstate, hse, -⟩ := h
            subst hstate
            subst hse
            exact ⟨rfl, rfl⟩
          · simp only [Bool.not_eq_true] at hnl
            subst hnl
            simp [getchr, getchrAfterAlt, getchrDevice, Option.map_eq_some'] at h
            obtain ⟨p, pd, -, -, hstate, hse, -⟩ := h
            subst hstate
            subst hse
            exact ⟨rfl, rfl⟩
      | cons c rest =>
          simp [getchr] at h
          obtain ⟨-, hstate, hse, -⟩ := h
          subst hstate
          subst hse
          exact ⟨rfl, rfl⟩

/-- Witness for C8. -/
theorem getchr_use_stderr_permanent_w :
    (⟨none, false, false, true, true, [], 0, 0⟩ : GetchrState).use_stderr = false ∧
      ([] : List StderrEvent) = [] :=
  getchr_use_stderr_permanent ⟨none, false, false, true, true, [], 0, 0⟩ []
    [DevEvent.byte 5] (GetchrResult.byte 5) ⟨none, false, false, true, true, [], 0, 0⟩
    [] [] rfl (by decide)

/-- Environment of `open_tty`: the `LESSTEST` override name `ttyin_name`
(`is_lesstest()` holds when it is non-NULL), the result of `ttyname(2)`,
and the platform `open` call on a device path (`open_tty_device`),
returning a file descriptor, negative on failure. -/
structure TtyEnv where
  ttyin_name : Option String
  ttyname2 : Option String
  openDev : String → Int

/-- `open_tty`: start from fd = -1; under `is_lesstest()` try the
override name; if still negative and `ttyname(2)` is non-NULL try that
name; if still negative try "/dev/tty"; if still negative fall back to
file descriptor 2. -/
def open_tty (env : TtyEnv) : Int :=
  let fd0 : Int := -1
  let fd1 : Int :=
    match env.ttyin_name with
    | some name => env.openDev name
    | none => fd0
  let fd2 : Int :=
    if fd1 < 0 then
      match env.ttyname2 with
      | some dev => env.openDev dev
      | none => fd1
    else fd1
  let fd3 : Int := if fd2 < 0 then env.openDev "/dev/tty" else fd2
  if fd3 < 0 then 2 else fd3

/-- The spec's wording of the device locator, for the refinement claim
C7: enumerate the candidate opens in the stated order — the scripted
override when active, the resolved terminal name of descriptor 2, the
path "/dev/tty" — take the first attempt yielding an openable (non
negative) handle, and fall back to the raw descriptor 2. -/
def locate_device_spec (env : TtyEnv) : Int :=
  let candidates :=
    (match env.ttyin_name with | some n => [env.openDev n] | none => []) ++
      (match env.ttyname2 with | some d => [env.openDev d] | none => []) ++
      [env.openDev "/dev/tty"]
  match candidates.find? (fun fd => decide (0 ≤ fd)) with
  | some fd => fd
  | none => 2

theorem open_tty_nonneg (env : TtyEnv) : 0 ≤ open_tty env := by
  simp only [open_tty]
  split <;> omega

/-- Claim C7: `open_tty` tries the input sources in the exact order
scripted-override, `ttyname(2)`, "/dev/tty", raw descriptor 2, stopping
at the first openable handle — it equals the first-openable-candidate
function written from the spec — and its result is never negative. -/
theorem open_tty_first_openable (env : TtyEnv) :
    open_tty env = locate_device_spec env ∧ 0 ≤ open_tty env := by
  refine ⟨?_, open_tty_nonneg env⟩
  obtain ⟨tn, t2, od⟩ := env
  simp only [open_tty, locate_device_spec]
  cases tn with
  | none =>
      cases t2 with
      | none =>
          by_cases h3 : 0 ≤ od "/dev/tty"
          · simp [h3, show ¬ od "/dev/tty" < 0 by omega, List.find?]
          · simp [h3, show od "/dev/tty" < 0 by omega, List.find?]
      | some d =>
          by_cases h2 : 0 ≤ od d
          · simp [h2, show ¬ od d < 0 by omega, List.find?]
          · by_cases h3 : 0 ≤ od "/dev/tty"
            · simp [h2, h3, show od d < 0 by omega,
                show ¬ od "/dev/tty" < 0 by omega, List.find?]
            · simp [h2, h3, show od d < 0 by omega,
                show od "/dev/tty" < 0 by omega, List.find?]
  | some n =>
      by_cases h1 : 0 ≤ od n
      · simp [h1, show ¬ od n < 0 by omega, List.find?]
      · cases t2 with
        | none =>
            by_cases h3 : 0 ≤ od "/dev/tty"
            · simp [h1, h3, show od n < 0 by omega,
                show ¬ od "/dev/tty" < 0 by omega, List.find?]
            · simp [h1, h3, show od n < 0 by omega,
                show od "/dev/tty" < 0 by omega, List.find?]
        | some d =>
            by_cases h2 : 0 ≤ od d
            · simp [h1, h2, show od n < 0 by omega, show ¬ od d < 0 by omega,
                List.find?]
            · by_cases h3 : 0 ≤ od "/dev/tty"
              · simp [h1, h2, h3, show od n < 0 by omega, show od d < 0 by omega,
                  show ¬ od "/dev/tty" < 0 by omega, List.find?]
              · simp [h1, h2, h3, show od n < 0 by omega, show od d < 0 by omega,
                  show od "/dev/tty" < 0 by omega, List.find?]

/-- Console-mode bit defined in ttyin.c when missing: 0x80. -/
def ENABLE_EXTENDED_FLAGS : Nat := 0x80

/-- Console-mode bit defined in ttyin.c when missing: 0x40. -/
def ENABLE_QUICK_EDIT_MODE : Nat := 0x40

/-- Console-mode bit defined in ttyin.c when missing: 0x0200. -/
def ENABLE_VIRTUAL_TERMINAL_INPUT : Nat := 0x0200

/-- Console-mode bit from the platform headers (windows.h): 0x0001. -/
def ENABLE_PROCESSED_INPUT : Nat := 0x0001

/-- Console-mode bit from the platform headers (windows.h): 0x0010. -/
def ENABLE_MOUSE_INPUT : Nat := 0x0010

/-- A DWORD is 32 bits; `x & ~m` is modelled as `x &&& (mask ^^^ m)`. -/
def DWORD_MASK : Nat := 0xFFFFFFFF

/-- The console device as seen through GetConsoleMode/SetConsoleMode:
just its current input mode. -/
structure WinConsole where
  mode : Nat
deriving DecidableEq, Repr

/-- The WIN32C globals of ttyin.c holding the captured and derived
console input modes. -/
structure WinTtyState where
  init_console_input_mode : Nat
  base_console_input_mode : Nat
  mouse_console_input_mode : Nat
  curr_console_input_mode : Nat
deriving DecidableEq, Repr

/-- The WIN32C `open_getchr`: `GetConsoleMode` captures the mode active
at open time into `init_console_input_mode`, derives the base mode
(`(init | ENABLE_PROCESSED_INPUT) & ~ENABLE_VIRTUAL_TERMINAL_INPUT`) and
the mouse mode, starts with the base mode and applies it with
`SetConsoleMode`. -/
def open_getchr (con : WinConsole) : WinTtyState × WinConsole :=
  let init := con.mode
  let base := (init ||| ENABLE_PROCESSED_INPUT) &&& (DWORD_MASK ^^^ ENABLE_VIRTUAL_TERMINAL_INPUT)
  let mouse := (base ||| ENABLE_MOUSE_INPUT ||| ENABLE_EXTENDED_FLAGS) &&&
    (DWORD_MASK ^^^ ENABLE_QUICK_EDIT_MODE)
  ({ init_console_input_mode := init, base_console_input_mode := base,
     mouse_console_input_mode := mouse, curr_console_input_mode := base },
   { mode := base })

/-- The WIN32C `close_getchr`: `SetConsoleMode(tty, init_console_input_mode)`
restores the mode captured at open time (the handle release is not
modelled). -/
def close_getchr (st : WinTtyState) (_con : WinConsole) : WinConsole :=
  { mode := st.init_console_input_mode }

/-- One in-session mode toggle: `curr_console_input_mode = m` followed by
`SetConsoleMode(tty, curr_console_input_mode)` (the pattern used by
`init_mouse` and by the console-mode reapplication in `pclose`). -/
def set_console_mode (st : WinTtyState) (_con : WinConsole) (m : Nat) :
    WinTtyState × WinConsole :=
  ({ st with curr_console_input_mode := m }, { mode := m })

/-- Any finite sequence of in-session mode toggles. -/
def run_toggles (st : WinTtyState) (con : WinConsole) : List Nat → WinTtyState × WinConsole
  | [] => (st, con)
  | m :: ms =>
      let p := set_console_mode st con m
      run_toggles p.1 p.2 ms

theorem run_toggles_init (ms : List Nat) (st : WinTtyState) (con : WinConsole) :
    (run_toggles st con ms).1.init_console_input_mode = st.init_console_input_mode := by
  induction ms generalizing st con with
  | nil => rfl
  | cons m ms ih => simpa [run_toggles, set_console_mode] using ih _ _

/-- Claim C9: the session is a round trip on the device mode:
`open_getchr` captures the mode active at open time as
`init_console_input_mode`, and after any sequence of in-session mode
toggles, `close_getchr` restores exactly that captured mode, so the
console mode after close equals its pre-session value. -/
theorem open_close_getchr_roundtrip (con : WinConsole) (toggles : List Nat) :
    (open_getchr con).1.init_console_input_mode = con.mode ∧
    close_getchr (run_toggles (open_getchr con).1 (open_getchr con).2 toggles).1
      (run_toggles (open_getchr con).1 (open_getchr con).2 toggles).2 = con := by
  refine ⟨rfl, ?_⟩
  obtain ⟨m⟩ := con
  simp [close_getchr, run_toggles_init, open_getchr]
